import Mathlib

/-!
Shallow embedding of the engagement state machine, mismatch tracking and
actuator sanitization of `selfdrive/controls/controlsd.py`, together with
theorems settling the spec claims about them.
-/

namespace Controlsd

/-- `log.ControlsState.OpenpilotState`: the engagement states used by
`Controls.state_transition`. -/
inductive State where
  | disabled
  | preEnabled
  | enabled
  | softDisabling
  | overriding
  deriving DecidableEq, Repr

/-- The per-cycle event set, abstracted to the category-membership queries
`self.events.contains(ET.*)` that `state_transition` performs.  Each field
is the value of `events.contains` for one event category (`ET`). -/
structure EventSet where
  enable : Bool := false
  pre_enable : Bool := false
  no_entry : Bool := false
  user_disable : Bool := false
  soft_disable : Bool := false
  immediate_disable : Bool := false
  override_lateral : Bool := false
  override_longitudinal : Bool := false
  warning : Bool := false
  permanent : Bool := false
  deriving DecidableEq, Repr

/-- `SOFT_DISABLE_TIME = 3` seconds (controlsd.py line 42). -/
def SOFT_DISABLE_TIME : ℤ := 3

/-- Modelled from the spec: `DT_CTRL`, the control tick period, lives in
`openpilot/common/realtime.py` which is outside the provided sources; the
spec fixes the loop at 100 Hz, i.e. a 10 ms period, so `DT_CTRL = 0.01`.
We carry it as the rational `1/100`. -/
def DT_CTRL : ℚ := 1 / 100

/-- `int(SOFT_DISABLE_TIME / DT_CTRL)` (controlsd.py lines 535 and 565): in
IEEE double arithmetic `3 / 0.01` rounds to exactly `300.0` (the real
quotient of 3 by the double nearest 0.01 lies within half an ulp of 300),
so the Python expression evaluates to 300, which equals the exact rational
quotient modelled here. -/
def soft_disable_rearm : ℤ := ⌊(SOFT_DISABLE_TIME : ℚ) / DT_CTRL⌋

/-- The `if self.state != State.disabled:` branch of
`Controls.state_transition` (controlsd.py lines 520-570).  `timer` has
already been decremented by the caller, as in the source. -/
def transition_not_disabled (s : State) (timer : ℤ) (e : EventSet) : State × ℤ :=
  -- user and immediate disable always have priority in a non-disabled state
  if e.user_disable then (State.disabled, timer)
  else if e.immediate_disable then (State.disabled, timer)
  else
    match s with
    | State.enabled =>
      if e.soft_disable then (State.softDisabling, soft_disable_rearm)
      else if e.override_lateral || e.override_longitudinal then (State.overriding, timer)
      else (State.enabled, timer)
    | State.softDisabling =>
      if !e.soft_disable then (State.enabled, timer)
      else if timer > 0 then (State.softDisabling, timer)
      else (State.disabled, timer)
    | State.preEnabled =>
      if !e.pre_enable then (State.enabled, timer)
      else (State.preEnabled, timer)
    | State.overriding =>
      if e.soft_disable then (State.softDisabling, soft_disable_rearm)
      else if !(e.override_lateral || e.override_longitudinal) then (State.enabled, timer)
      else (State.overriding, timer)
    | State.disabled => (State.disabled, timer)  -- unreachable from the caller

/-- `Controls.state_transition` (controlsd.py lines 508-586), restricted to
the state fields it reads and writes: the engagement state and the
soft-disable timer.  The timer decrement `max(0, timer - 1)` (line 515)
runs before the branch logic, exactly as in the source. -/
def state_transition (s : State) (timer : ℤ) (e : EventSet) : State × ℤ :=
  let t := max 0 (timer - 1)
  match s with
  | State.disabled =>
    if e.enable then
      if e.no_entry then (State.disabled, t)
      else if e.pre_enable then (State.preEnabled, t)
      else if e.override_lateral || e.override_longitudinal then (State.overriding, t)
      else (State.enabled, t)
    else (State.disabled, t)
  | _ => transition_not_disabled s t e

/-- Iterating `state_transition` over a list of per-cycle event sets, the
way `Controls.step` invokes it once per cycle. -/
def run_transitions (s : State) (timer : ℤ) : List EventSet → State × ℤ
  | [] => (s, timer)
  | e :: es =>
    let st := state_transition s timer e
    run_transitions st.1 st.2 es

/-- `self.soft_disable_timer = 0` in `Controls.__init__` (line 150). -/
def initial_soft_disable_timer : ℤ := 0

/-- A capnp actuator field value as observed by the sanitization loop of
`Controls.state_control` (lines 717-725): either a float — finite, NaN, or
an infinity — or a non-float field (e.g. `longControlState`), which the
loop skips via the `SupportsFloat` isinstance check. -/
inductive FieldVal where
  | finite (q : ℚ)
  | nan
  | inf
  | neginf
  | nonFloat
  deriving DecidableEq, Repr

/-- True exactly for float values on which `math.isfinite` returns False:
NaN and the two infinities. -/
def FieldVal.isNonFinite : FieldVal → Bool
  | FieldVal.nan => true
  | FieldVal.inf => true
  | FieldVal.neginf => true
  | _ => false

/-- The NaN/Inf sanitization loop over `ACTUATOR_FIELDS` in
`Controls.state_control` (lines 717-725): each float field that is not
finite is replaced by `0.0` and its name logged through `cloudlog.error`;
every other field passes through unchanged.  Returns the sanitized field
list and the list of logged field names. -/
def sanitize_actuators : List (String × FieldVal) → List (String × FieldVal) × List String
  | [] => ([], [])
  | (n, v) :: rest =>
    let r := sanitize_actuators rest
    if v.isNonFinite then ((n, FieldVal.finite 0) :: r.1, n :: r.2)
    else ((n, v) :: r.1, r.2)

/-- `car.CarParams.SafetyModel`, reduced to what the mismatch logic tests:
the two members of `IGNORED_SAFETY_MODES` and everything else. -/
inductive SafetyModel where
  | silent
  | noOutput
  | other (id : ℕ)
  deriving DecidableEq, Repr

/-- `IGNORED_SAFETY_MODES = (SafetyModel.silent, SafetyModel.noOutput)`
(controlsd.py line 64). -/
def IGNORED_SAFETY_MODES : List SafetyModel := [SafetyModel.silent, SafetyModel.noOutput]

/-- One entry of `self.sm['pandaStates']`, restricted to the fields read
by `update_events` (lines 334-348) and `data_sample` (lines 494-505).
`relayMalfunctionFault` stands for
`log.PandaState.FaultType.relayMalfunction in pandaState.faults`. -/
structure PandaState where
  safetyModel : SafetyModel
  safetyParam : ℤ
  alternativeExperience : ℤ
  controlsAllowed : Bool
  safetyRxChecksInvalid : Bool
  relayMalfunctionFault : Bool
  deriving DecidableEq, Repr

/-- One entry of `self.CP.safetyConfigs`. -/
structure SafetyConfig where
  safetyModel : SafetyModel
  safetyParam : ℤ
  deriving DecidableEq, Repr

/-- The events the panda-state loop of `update_events` can add. -/
inductive PandaEvent where
  | controlsMismatch
  | relayMalfunction
  deriving DecidableEq, Repr

/-- The loop body of `for i, pandaState in enumerate(self.sm['pandaStates'])`
in `Controls.update_events` (lines 334-348), carrying the running index
`i`.  `frame` is `self.sm.frame` and `mismatch_counter` is the counter
maintained by `data_sample`. -/
def panda_state_events (safetyConfigs : List SafetyConfig) (alternativeExperience : ℤ)
    (frame : ℕ) (mismatch_counter : ℕ) : ℕ → List PandaState → List PandaEvent
  | _, [] => []
  | i, ps :: rest =>
    -- All pandas must match the list of safetyConfigs, and if outside this
    -- list, must be silent or noOutput
    let safety_mismatch : Bool :=
      match safetyConfigs[i]? with
      | some cfg =>
        decide (ps.safetyModel ≠ cfg.safetyModel) ||
          decide (ps.safetyParam ≠ cfg.safetyParam) ||
          decide (ps.alternativeExperience ≠ alternativeExperience)
      | none => decide (ps.safetyModel ∉ IGNORED_SAFETY_MODES)
    let add_mismatch : Bool :=
      (safety_mismatch && decide ((frame : ℚ) * DT_CTRL > 10)) ||
        ps.safetyRxChecksInvalid || decide (mismatch_counter ≥ 200)
    (if add_mismatch then [PandaEvent.controlsMismatch] else []) ++
      (if ps.relayMalfunctionFault then [PandaEvent.relayMalfunction] else []) ++
      panda_state_events safetyConfigs alternativeExperience frame mismatch_counter
        (i + 1) rest

/-- The full panda-state section of `Controls.update_events`, starting the
enumeration at index 0. -/
def update_events_panda (safetyConfigs : List SafetyConfig) (alternativeExperience : ℤ)
    (frame : ℕ) (mismatch_counter : ℕ) (pandaStates : List PandaState) : List PandaEvent :=
  panda_state_events safetyConfigs alternativeExperience frame mismatch_counter 0 pandaStates

/-- The `mismatch_counter` update of `Controls.data_sample` (lines
494-505): reset to 0 when not enabled, then increment when enabled and any
panda outside the ignored safety modes reports `controlsAllowed` false. -/
def mismatch_counter_update (enabled : Bool) (pandaStates : List PandaState)
    (counter : ℕ) : ℕ :=
  let counter := if !enabled then 0 else counter
  if enabled && (pandaStates.filter
        (fun ps => decide (ps.safetyModel ∉ IGNORED_SAFETY_MODES))).any
        (fun ps => !ps.controlsAllowed) then
    counter + 1
  else counter

end Controlsd

namespace Controlsd

/-- The re-arm constant evaluates to 300 cycles. -/
theorem soft_disable_rearm_eq : soft_disable_rearm = 300 := by
  norm_num [soft_disable_rearm, SOFT_DISABLE_TIME, DT_CTRL]

/-- C1: in any non-disabled state, a cycle whose events contain a
UserDisable- or ImmediateDisable-category event drives the state to
Disabled, whatever else the event set contains. -/
theorem user_or_immediate_disable_preempts (s : State) (timer : ℤ) (e : EventSet)
    (hs : s ≠ State.disabled)
    (he : e.user_disable = true ∨ e.immediate_disable = true) :
    (state_transition s timer e).1 = State.disabled := by
  rcases he with h | h
  · cases s <;> simp_all [state_transition, transition_not_disabled]
  · cases s <;> cases hu : e.user_disable <;>
      simp_all [state_transition, transition_not_disabled]

/-- Witness for C1 at a concrete input: state Enabled, events containing
ImmediateDisable (with other categories set as well). -/
theorem user_or_immediate_disable_preempts_witness :
    (state_transition State.enabled 42
      { immediate_disable := true, soft_disable := true, enable := true }).1
      = State.disabled :=
  user_or_immediate_disable_preempts State.enabled 42
    { immediate_disable := true, soft_disable := true, enable := true }
    (by decide) (Or.inr rfl)

/-- Counterexample to C2 as stated: from SoftDisabling with timer 1 and a
SoftDisable event, the decrement at line 515 brings the timer to 0 before
the `elif self.soft_disable_timer > 0` check, so the state becomes
Disabled in that same cycle, not SoftDisabling. -/
theorem soft_disabling_timer_one_counterexample :
    state_transition State.softDisabling 1 { soft_disable := true }
      = (State.disabled, 0) ∧ State.disabled ≠ State.softDisabling := by
  constructor
  · simp [state_transition, transition_not_disabled]
  · decide

/-- C2 (amended): from SoftDisabling with timer 1 and a SoftDisable event
(no UserDisable/ImmediateDisable), the state becomes Disabled with timer 0
in that same cycle; the claimed two-cycle run (stay SoftDisabling with
timer 1, then Disabled next cycle) holds starting from timer 2. -/
theorem soft_disabling_final_cycle (e : EventSet)
    (hu : e.user_disable = false) (hi : e.immediate_disable = false)
    (hs : e.soft_disable = true) :
    state_transition State.softDisabling 1 e = (State.disabled, 0) ∧
    state_transition State.softDisabling 2 e = (State.softDisabling, 1) := by
  constructor <;> simp [state_transition, transition_not_disabled, hu, hi, hs]

/-- Witness for the amended C2 at the event set containing exactly
SoftDisable. -/
theorem soft_disabling_final_cycle_witness :
    state_transition State.softDisabling 1 { soft_disable := true }
      = (State.disabled, 0) ∧
    state_transition State.softDisabling 2 { soft_disable := true }
      = (State.softDisabling, 1) :=
  soft_disabling_final_cycle { soft_disable := true } rfl rfl rfl

/-- C3: every fresh entry into SoftDisabling — from Enabled or from
Overriding, on a SoftDisable event without UserDisable/ImmediateDisable —
re-arms the soft-disable timer to `int(SOFT_DISABLE_TIME / DT_CTRL)` = 300
cycles, regardless of the timer's previous value. -/
theorem soft_disabling_rearm (s : State) (timer : ℤ) (e : EventSet)
    (hs : s = State.enabled ∨ s = State.overriding)
    (hu : e.user_disable = false) (hi : e.immediate_disable = false)
    (hd : e.soft_disable = true) :
    state_transition s timer e = (State.softDisabling, 300) := by
  rcases hs with rfl | rfl <;>
    simp [state_transition, transition_not_disabled, hu, hi, hd, soft_disable_rearm_eq]

/-- Witness for C3: entering SoftDisabling from Enabled with a stale timer
value 7 still yields timer 300. -/
theorem soft_disabling_rearm_witness :
    state_transition State.enabled 7 { soft_disable := true }
      = (State.softDisabling, 300) :=
  soft_disabling_rearm State.enabled 7 { soft_disable := true }
    (Or.inl rfl) rfl rfl rfl

/-- C4: from Disabled, the state leaves Disabled exactly when the events
contain Enable and no NoEntry; the target is then PreEnabled if PreEnable
is present, else Overriding if an override category is present, else
Enabled. -/
theorem disabled_entry_characterization (timer : ℤ) (e : EventSet) :
    ((state_transition State.disabled timer e).1 ≠ State.disabled ↔
      e.enable = true ∧ e.no_entry = false) ∧
    (state_transition State.disabled timer e).1 =
      (if e.enable && !e.no_entry then
        (if e.pre_enable then State.preEnabled
         else if e.override_lateral || e.override_longitudinal then State.overriding
         else State.enabled)
       else State.disabled) := by
  cases he : e.enable <;> cases hn : e.no_entry <;> cases hp : e.pre_enable <;>
    cases hl : e.override_lateral <;> cases hg : e.override_longitudinal <;>
    simp [state_transition, he, hn, hp, hl, hg]

/-- Witness for C4 at the spec's scenario: state Disabled, events
{Enable, PreEnable} transition to PreEnabled. -/
theorem disabled_entry_characterization_witness :
    (state_transition State.disabled 0 { enable := true, pre_enable := true }).1
      = State.preEnabled := by
  have h := (disabled_entry_characterization 0 { enable := true, pre_enable := true }).2
  simpa using h

/-- Unfolding lemma: one cycle of `run_transitions`. -/
theorem run_transitions_cons (s : State) (timer : ℤ) (e : EventSet) (es : List EventSet) :
    run_transitions s timer (e :: es)
      = run_transitions (state_transition s timer e).1 (state_transition s timer e).2 es :=
  rfl

/-- C8: in state Enabled, an event set with no UserDisable,
ImmediateDisable, SoftDisable, OverrideLateral or OverrideLongitudinal
category leaves the state Enabled under any number of repetitions. -/
theorem enabled_idempotent (e : EventSet) (n : ℕ) (timer : ℤ)
    (hu : e.user_disable = false) (hi : e.immediate_disable = false)
    (hs : e.soft_disable = false) (hl : e.override_lateral = false)
    (hg : e.override_longitudinal = false) :
    (run_transitions State.enabled timer (List.replicate n e)).1 = State.enabled := by
  induction n generalizing timer with
  | zero => simp [run_transitions]
  | succ n ih =>
    rw [List.replicate_succ, run_transitions_cons]
    have hstep : state_transition State.enabled timer e
        = (State.enabled, max 0 (timer - 1)) := by
      simp [state_transition, transition_not_disabled, hu, hi, hs, hl, hg]
    rw [hstep]
    exact ih _

/-- Witness for C8: three cycles of a benign event set (Enable and Warning
categories only) keep the state Enabled. -/
theorem enabled_idempotent_witness :
    (run_transitions State.enabled 5
      (List.replicate 3 ({ enable := true, warning := true } : EventSet))).1
      = State.enabled :=
  enabled_idempotent { enable := true, warning := true } 3 5 rfl rfl rfl rfl rfl

/-- Helper: one transition step never produces a negative timer — the
decrement is clamped at 0 and the re-arm value is 300. -/
theorem timer_nonneg_step (s : State) (timer : ℤ) (e : EventSet) :
    0 ≤ (state_transition s timer e).2 := by
  cases s <;>
    simp only [state_transition, transition_not_disabled] <;>
    (repeat' split) <;>
    simp [soft_disable_rearm_eq]

/-- Helper: iterating transitions from a non-negative timer keeps the
timer non-negative. -/
theorem run_transitions_timer_nonneg (es : List EventSet) (s : State) (t : ℤ)
    (ht : 0 ≤ t) : 0 ≤ (run_transitions s t es).2 := by
  induction es generalizing s t with
  | nil => simpa [run_transitions] using ht
  | cons e es ih =>
    rw [run_transitions_cons]
    exact ih _ _ (timer_nonneg_step s t e)

/-- C9: starting from the initial state (Disabled, timer 0 as set in
`Controls.__init__`), no sequence of per-cycle event sets can drive the
soft-disable timer below 0. -/
theorem soft_disable_timer_never_negative (es : List EventSet) :
    0 ≤ (run_transitions State.disabled initial_soft_disable_timer es).2 :=
  run_transitions_timer_nonneg es State.disabled initial_soft_disable_timer le_rfl

/-- Helper: a non-finite float field is replaced by 0 at its position and
its name is logged. -/
theorem sanitize_actuators_replaces (fields : List (String × FieldVal)) (i : ℕ)
    (n : String) (v : FieldVal) (h : fields[i]? = some (n, v))
    (hv : v.isNonFinite = true) :
    (sanitize_actuators fields).1[i]? = some (n, FieldVal.finite 0) ∧
      n ∈ (sanitize_actuators fields).2 := by
  induction fields generalizing i with
  | nil => simp at h
  | cons hd tl ih =>
    obtain ⟨m, w⟩ := hd
    cases i with
    | zero =>
      simp only [List.getElem?_cons_zero, Option.some.injEq, Prod.mk.injEq] at h
      obtain ⟨rfl, rfl⟩ := h
      simp [sanitize_actuators, hv]
    | succ i =>
      simp only [List.getElem?_cons_succ] at h
      obtain ⟨h1, h2⟩ := ih i h
      constructor <;> by_cases hw : w.isNonFinite <;>
        simp [sanitize_actuators, hw, h1, h2]

/-- Helper: a field that is not a non-finite float passes through
unchanged at its position. -/
theorem sanitize_actuators_keeps (fields : List (String × FieldVal)) (i : ℕ)
    (n : String) (v : FieldVal) (h : fields[i]? = some (n, v))
    (hv : v.isNonFinite = false) :
    (sanitize_actuators fields).1[i]? = some (n, v) := by
  induction fields generalizing i with
  | nil => simp at h
  | cons hd tl ih =>
    obtain ⟨m, w⟩ := hd
    cases i with
    | zero =>
      simp only [List.getElem?_cons_zero, Option.some.injEq, Prod.mk.injEq] at h
      obtain ⟨rfl, rfl⟩ := h
      simp [sanitize_actuators, hv]
    | succ i =>
      simp only [List.getElem?_cons_succ] at h
      have h1 := ih i h
      by_cases hw : w.isNonFinite <;> simp [sanitize_actuators, hw, h1]

/-- Helper: the sanitized output contains no non-finite value. -/
theorem sanitize_actuators_output_finite (fields : List (String × FieldVal)) :
    ∀ p ∈ (sanitize_actuators fields).1, p.2.isNonFinite = false := by
  induction fields with
  | nil => simp [sanitize_actuators]
  | cons hd tl ih =>
    obtain ⟨m, w⟩ := hd
    by_cases hw : w.isNonFinite <;>
      simp only [sanitize_actuators, hw, if_true, if_false, Bool.false_eq_true,
        List.mem_cons, forall_eq_or_imp] <;>
      refine ⟨by simp_all [FieldVal.isNonFinite], ih⟩

/-- C5: the sanitization pass replaces every NaN/infinite field with 0.0
and logs its name, leaves every other field unchanged, and hence the
published command contains no non-finite values. -/
theorem sanitizer_spec (fields : List (String × FieldVal)) (i : ℕ)
    (n : String) (v : FieldVal) (h : fields[i]? = some (n, v)) :
    (v.isNonFinite = true →
      (sanitize_actuators fields).1[i]? = some (n, FieldVal.finite 0) ∧
        n ∈ (sanitize_actuators fields).2) ∧
    (v.isNonFinite = false → (sanitize_actuators fields).1[i]? = some (n, v)) ∧
    (∀ p ∈ (sanitize_actuators fields).1, p.2.isNonFinite = false) :=
  ⟨fun hv => sanitize_actuators_replaces fields i n v h hv,
   fun hv => sanitize_actuators_keeps fields i n v h hv,
   sanitize_actuators_output_finite fields⟩

/-- Witness for C5 at the spec's scenario `{accel: NaN, steer: 0.4}`: the
accel field is zeroed and logged, and the output is all finite. -/
theorem sanitizer_spec_witness :
    (FieldVal.nan.isNonFinite = true →
      (sanitize_actuators [("accel", FieldVal.nan), ("steer", FieldVal.finite (2/5))]).1[0]?
          = some ("accel", FieldVal.finite 0) ∧
        "accel" ∈ (sanitize_actuators
          [("accel", FieldVal.nan), ("steer", FieldVal.finite (2/5))]).2) ∧
    (FieldVal.nan.isNonFinite = false →
      (sanitize_actuators [("accel", FieldVal.nan), ("steer", FieldVal.finite (2/5))]).1[0]?
        = some ("accel", FieldVal.nan)) ∧
    (∀ p ∈ (sanitize_actuators
        [("accel", FieldVal.nan), ("steer", FieldVal.finite (2/5))]).1,
      p.2.isNonFinite = false) :=
  sanitizer_spec [("accel", FieldVal.nan), ("steer", FieldVal.finite (2/5))]
    0 "accel" FieldVal.nan rfl

/-- Counterexample to C6 as stated: with the mismatch counter at 200 (and
the system engaged — engagement does not even enter the aggregation
check), an empty pandaStates list produces no controlsMismatch event,
because the threshold test runs only inside the per-panda loop. -/
theorem mismatch_threshold_counterexample :
    200 ≥ 200 ∧
      PandaEvent.controlsMismatch ∉ update_events_panda [] 0 5000 200 [] := by
  constructor
  · decide
  · simp [update_events_panda, panda_state_events]

/-- C6 (amended): whenever the pandaMismatch counter has reached 200 and at
least one panda state is present, the controlsMismatch event is added to
that cycle's event set (whatever the configs, frame and channel contents). -/
theorem mismatch_threshold_event (safetyConfigs : List SafetyConfig)
    (alternativeExperience : ℤ) (frame : ℕ) (mismatch_counter : ℕ)
    (ps : PandaState) (rest : List PandaState)
    (h : mismatch_counter ≥ 200) :
    PandaEvent.controlsMismatch ∈
      update_events_panda safetyConfigs alternativeExperience frame
        mismatch_counter (ps :: rest) := by
  have hd : decide (mismatch_counter ≥ 200) = true := decide_eq_true h
  simp [update_events_panda, panda_state_events, hd]

/-- Witness for the amended C6: counter exactly 200, one panda channel
whose own checks all pass. -/
theorem mismatch_threshold_event_witness :
    PandaEvent.controlsMismatch ∈
      update_events_panda [] 0 0 200
        [⟨SafetyModel.other 17, 0, 0, true, false, false⟩] :=
  mismatch_threshold_event [] 0 0 200
    ⟨SafetyModel.other 17, 0, 0, true, false, false⟩ [] (by decide)

/-- C7: the pandaMismatch counter resets to 0 on any cycle the system is
not engaged, and increments by exactly 1 on any cycle the system is
engaged while some channel outside the silent/noOutput safety modes
reports controls not allowed. -/
theorem mismatch_counter_spec (enabled : Bool) (pandaStates : List PandaState)
    (counter : ℕ) :
    (enabled = false → mismatch_counter_update enabled pandaStates counter = 0) ∧
    (enabled = true →
      (∃ ps ∈ pandaStates, ps.safetyModel ∉ IGNORED_SAFETY_MODES ∧
        ps.controlsAllowed = false) →
      mismatch_counter_update enabled pandaStates counter = counter + 1) := by
  constructor
  · rintro rfl
    simp [mismatch_counter_update]
  · rintro rfl ⟨ps, hmem, hmod, hca⟩
    simp [mismatch_counter_update]
    exact ⟨ps, hmem, hmod, hca⟩

/-- Witness for C7: engaged with one non-silent channel reporting
controlsAllowed false increments the counter from 5 to 6. -/
theorem mismatch_counter_spec_witness :
    mismatch_counter_update true
      [⟨SafetyModel.other 17, 0, 0, false, false, false⟩] 5 = 6 :=
  (mismatch_counter_spec true
      [⟨SafetyModel.other 17, 0, 0, false, false, false⟩] 5).2 rfl
    ⟨⟨SafetyModel.other 17, 0, 0, false, false, false⟩, by simp, by decide, rfl⟩

/-- C10: with an empty pandaStates list, the per-cycle aggregation never
adds controlsMismatch, no matter how large the mismatch counter is — the
threshold check lives inside the per-channel loop. -/
theorem empty_panda_states_no_mismatch (safetyConfigs : List SafetyConfig)
    (alternativeExperience : ℤ) (frame : ℕ) (mismatch_counter : ℕ) :
    PandaEvent.controlsMismatch ∉
      update_events_panda safetyConfigs alternativeExperience frame
        mismatch_counter [] := by
  simp [update_events_panda, panda_state_events]

end Controlsd
